import Mathlib

/-!
Verification of the fastapi_addressbook repository: a shallow embedding of
its address repository (src/address_utils.py), field validation
(src/schemas.py), response envelope helpers (src/response_utils.py) and the
relevant endpoint wiring (src/main.py), together with theorems settling the
frozen claims about it.

Modelling conventions:
- Python floats are modelled as rationals (exact arithmetic; none of the
  claims concern floating-point rounding).
- The SQLAlchemy store (a single `addresses` table) is modelled as a
  `List Address` threaded explicitly through each repository operation.
- Raised `HTTPException`s become `Except HTTPError` results; an error result
  leaves the threaded store untouched, mirroring a rolled-back transaction.
- `id` assignment by the store is modelled as max-id-plus-one, matching the
  integer primary key of the `addresses` table.
-/

/-- An HTTPException as raised by address_utils: a status code and a detail
string. -/
structure HTTPError where
  statusCode : Nat
  detail : String
deriving DecidableEq, Repr

deriving instance DecidableEq for Except

/-- A persisted row of the `addresses` table (database_and_models.Address):
integer primary key `id`, unique `name`, four plain string columns and the
two coordinate columns. -/
structure Address where
  id : Nat
  name : String
  street : String
  city : String
  state : String
  country : String
  latitude : Rat
  longitude : Rat
deriving DecidableEq, Repr

/-- The create-request body (schemas.AddressCreate): every field required. -/
structure AddressCreate where
  name : String
  street : String
  city : String
  state : String
  country : String
  latitude : Rat
  longitude : Rat
deriving DecidableEq, Repr

/-- The update-request body (schemas.AddressUpdate): every field optional,
`none` meaning the field is absent from the payload. -/
structure AddressUpdate where
  name : Option String
  street : Option String
  city : Option String
  state : Option String
  country : Option String
  latitude : Option Rat
  longitude : Option Rat
deriving DecidableEq, Repr

/-- schemas.validate_latitude. The `lat is None` and `isinstance` guards of
the Python code cannot fire for an input that is already a number, which the
`Rat` input type makes structural here; the range test is translated
verbatim. -/
def validate_latitude (lat : Rat) : Except String Rat :=
  if lat < -90 ∨ lat > 90 then
    .error "latitude value must be between -90 and 90"
  else
    .ok lat

/-- schemas.validate_longitude, same conventions as validate_latitude. -/
def validate_longitude (lon : Rat) : Except String Rat :=
  if lon < -180 ∨ lon > 180 then
    .error "longitude value must be between -180 and 180"
  else
    .ok lon

/-- Pydantic validation of an AddressCreate body: the `Latitude` and
`Longitude` annotated types run validate_latitude / validate_longitude as
AfterValidators; the string fields have no validators. -/
def addressCreate_validate (a : AddressCreate) : Except String AddressCreate :=
  match validate_latitude a.latitude with
  | .error e => .error e
  | .ok _ =>
    match validate_longitude a.longitude with
    | .error e => .error e
    | .ok _ => .ok a

/-- Pydantic validation of an AddressUpdate body. AddressUpdate re-declares
every field as a plain Optional (latitude and longitude as
`Optional[float] = None`, not `Optional[Latitude]`), which replaces the
inherited annotated fields: no AfterValidator runs, so any numeric latitude
and longitude are accepted unchanged. -/
def addressUpdate_validate (u : AddressUpdate) : Except String AddressUpdate :=
  .ok u

/-- Python truthiness of an optional string field in a model_dump dict:
absent fields dump to None (falsy); an empty string is falsy. -/
def truthyStr : Option String → Bool
  | none => false
  | some s => s ≠ ""

/-- Python truthiness of an optional numeric field in a model_dump dict:
absent fields dump to None (falsy); zero is falsy. -/
def truthyRat : Option Rat → Bool
  | none => false
  | some x => x ≠ 0

/-- Whether `fields_to_update = {k: v for k, v in u.model_dump().items() if v}`
is non-empty: at least one field of the payload is present with a truthy
value. -/
def has_truthy (u : AddressUpdate) : Bool :=
  truthyStr u.name || truthyStr u.street || truthyStr u.city ||
  truthyStr u.state || truthyStr u.country ||
  truthyRat u.latitude || truthyRat u.longitude

/-- Applying the `fields_to_update` dict of update_address to one row: each
column named in the dict (i.e. each truthy payload field) is overwritten,
every other column keeps its stored value. -/
def apply_update (a : Address) (u : AddressUpdate) : Address :=
  { a with
    name := match u.name with
      | some s => if s = "" then a.name else s
      | none => a.name
    street := match u.street with
      | some s => if s = "" then a.street else s
      | none => a.street
    city := match u.city with
      | some s => if s = "" then a.city else s
      | none => a.city
    state := match u.state with
      | some s => if s = "" then a.state else s
      | none => a.state
    country := match u.country with
      | some s => if s = "" then a.country else s
      | none => a.country
    latitude := match u.latitude with
      | some x => if x = 0 then a.latitude else x
      | none => a.latitude
    longitude := match u.longitude with
      | some x => if x = 0 then a.longitude else x
      | none => a.longitude }

/-- The fresh primary key the store assigns on insert: one more than the
largest existing id (SQLite integer primary key behaviour). -/
def next_id (db : List Address) : Nat :=
  db.foldr (fun a m => max a.id m) 0 + 1

/-- Outcomes of the store-level insert inside create_address: the unique
constraint on `name` surfaces as IntegrityError; any other persistence
failure (connectivity etc.), injected here by the `fault` flag, surfaces as
a generic SQLAlchemyError. -/
inductive DbError where
  | integrityError
  | sqlalchemyError
deriving DecidableEq, Repr

/-- The `db.add` / `db.commit` pair of create_address against the
`addresses` table: fails with IntegrityError exactly when the new row's
`name` collides with a stored row (the unique constraint of
database_and_models.Address), with a generic SQLAlchemyError when the store
itself fails (`fault`), and otherwise appends the row. -/
def db_insert (db : List Address) (fault : Bool) (a : Address) :
    Except DbError (List Address) :=
  if fault then .error .sqlalchemyError
  else if db.any (fun b => b.name = a.name) then .error .integrityError
  else .ok (db ++ [a])

/-- address_utils.create_address: build the row from the payload, insert it,
map IntegrityError to HTTP 409 and SQLAlchemyError to HTTP 500. On success
returns the new store and the materialized row (after db.refresh). -/
def create_address (db : List Address) (fault : Bool) (address : AddressCreate) :
    Except HTTPError (List Address × Address) :=
  let address_record : Address :=
    { id := next_id db
      name := address.name
      street := address.street
      city := address.city
      state := address.state
      country := address.country
      latitude := address.latitude
      longitude := address.longitude }
  match db_insert db fault address_record with
  | .ok db2 => .ok (db2, address_record)
  | .error .integrityError =>
      .error ⟨409, "Address with the same name already exists."⟩
  | .error .sqlalchemyError =>
      .error ⟨500, "An error occurred while storing the address."⟩

/-- address_utils.get_address: `first()` on the rows whose id matches, 404
when the result is None. -/
def get_address (db : List Address) (address_id : Nat) : Except HTTPError Address :=
  match db.find? (fun a => a.id = address_id) with
  | none => .error ⟨404, "Address not found"⟩
  | some a => .ok a

/-- address_utils.update_address. `fields_to_update` keeps only truthy
payload fields; when it is empty the generated UPDATE statement has an empty
SET clause, which the SQLAlchemy layer rejects (a SQLAlchemyError subclass),
caught by the function's generic handler as HTTP 500. Otherwise the rows
matching the id are updated; a rowcount of zero raises 404 inside the
transaction; applying a `name` already held by a different row violates the
unique constraint (IntegrityError, HTTP 400); on success the function
re-reads and returns the updated row. -/
def update_address (db : List Address) (address_id : Nat) (u : AddressUpdate) :
    Except HTTPError (List Address × Address) :=
  if has_truthy u = false then
    .error ⟨500, "An unexpected error occurred while updating the address."⟩
  else if (db.filter (fun a => a.id = address_id)).length = 0 then
    -- num_updated = 0
    .error ⟨404, "No address found with ID: " ++ toString address_id⟩
  else if truthyStr u.name &&
      db.any (fun b => b.id ≠ address_id ∧ some b.name = u.name) then
    .error ⟨400, "Cannot update address: Data integrity issue"⟩
  else
    match (db.map (fun a => if a.id = address_id then apply_update a u else a)).find?
        (fun a => a.id = address_id) with
    | some updated_address =>
        .ok (db.map (fun a => if a.id = address_id then apply_update a u else a),
          updated_address)
    | none =>
        -- unreachable: at least one row matched the id, so the re-read
        -- after commit finds the updated row
        .error ⟨500, "An unexpected error occurred while updating the address."⟩

/-- address_utils.delete_address: an existence read via get_address first
(its 404 is re-raised), then the physical delete of that row. Returns the
new store. -/
def delete_address (db : List Address) (address_id : Nat) :
    Except HTTPError (List Address) :=
  match get_address db address_id with
  | .error e => .error e
  | .ok db_address => .ok (db.filter (fun x => x.id ≠ db_address.id))

/-- address_utils.get_nearby_addresses: scan every stored row and keep those
whose distance from the user location is at most `distance`. The geopy
distance function is not part of this repository, so it is a parameter
here. -/
def get_nearby_addresses (geo_distance : Rat × Rat → Rat × Rat → Rat)
    (db : List Address) (distance latitude longitude : Rat) : List Address :=
  db.filter (fun address =>
    geo_distance (latitude, longitude) (address.latitude, address.longitude)
      ≤ distance)

/-- Absolute value on the rationals, written out so that concrete instances
reduce by computation. -/
def ratAbs (x : Rat) : Rat :=
  if x < 0 then -x else x

/-- Modelled from the spec: the geopy geodesic distance itself lives outside
this repository. The spec defines it as the shortest distance between two
points measured along the Earth's surface in kilometers, so any faithful
model of it is nonnegative; theorems that need the distance function take
that nonnegativity as an explicit hypothesis. This concrete stand-in (a
taxicab metric on coordinates) instantiates those hypotheses in witnesses. -/
def model_geo_distance (p q : Rat × Rat) : Rat :=
  ratAbs (p.1 - q.1) + ratAbs (p.2 - q.2)

/-- The names of the functions defined in the address_utils module, in
source order. -/
def address_utils_functions : List String :=
  ["create_address", "get_address", "update_address", "delete_address",
   "get_nearby_addresses", "get_all_addresses"]

/-- The attribute of the address_utils module that the
`/address/within-distance/` endpoint in main.py calls. -/
def within_distance_endpoint_callee : String :=
  "get_addresses_within"

/-- The parameter names accepted by response_utils.create_error_response. -/
def create_error_response_params : List String :=
  ["message", "status_code", "data"]

/-- The keyword arguments main.py's validation_exception_handler passes to
create_error_response. -/
def validation_handler_kwargs : List String :=
  ["status_code", "message", "errors"]

/-- The keys of the JSON envelope create_error_response builds. -/
def create_error_response_keys : List String :=
  ["status", "message", "data"]

/-- Whether a Python call that passes exactly the given keyword arguments to
a function with the given parameter names binds: every keyword must name a
parameter, otherwise the call raises TypeError. -/
def kwargs_bind (params kwargs : List String) : Bool :=
  kwargs.all (fun k => params.contains k)

/-! ## Concrete fixtures used in counterexamples and witnesses -/

/-- A stored address used in concrete scenarios (the spec's HQ record, with
integral coordinates for exact evaluation). -/
def addr0 : Address :=
  { id := 1, name := "HQ", street := "1 Main St", city := "X", state := "Y",
    country := "Z", latitude := 40, longitude := -74 }

/-- The create payload whose stored form is addr0. -/
def a0 : AddressCreate :=
  { name := "HQ", street := "1 Main St", city := "X", state := "Y",
    country := "Z", latitude := 40, longitude := -74 }

/-- An update payload carrying only an out-of-range latitude. -/
def u1000 : AddressUpdate :=
  { name := none, street := none, city := none, state := none,
    country := none, latitude := some 1000, longitude := none }

/-- addr0 after the out-of-range latitude update is applied. -/
def addr1000 : Address :=
  { addr0 with latitude := 1000 }

/-- The empty update payload: no field present. -/
def emptyUpd : AddressUpdate :=
  { name := none, street := none, city := none, state := none,
    country := none, latitude := none, longitude := none }

/-- An update payload mixing falsy fields (empty street, zero latitude) with
one truthy field (longitude 7). -/
def u04 : AddressUpdate :=
  { name := none, street := some "", city := none, state := none,
    country := none, latitude := some 0, longitude := some 7 }

/-- addr0 after u04 is applied: only the longitude changes. -/
def addr0_lon7 : Address :=
  { addr0 with longitude := 7 }

/-! ## Helper lemmas about the repository operations -/

theorem apply_update_id (a : Address) (u : AddressUpdate) :
    (apply_update a u).id = a.id := rfl

theorem update_address_ok_shape {db : List Address} {address_id : Nat}
    {u : AddressUpdate} {db2 : List Address} {rec : Address}
    (h : update_address db address_id u = .ok (db2, rec)) :
    db2 = db.map (fun a => if a.id = address_id then apply_update a u else a) ∧
    db2.find? (fun a => a.id = address_id) = some rec := by
  unfold update_address at h
  split at h
  · exact absurd h (by simp)
  · split at h
    · exact absurd h (by simp)
    · split at h
      · exact absurd h (by simp)
      · split at h
        next updated heq =>
          injection h with h2
          injection h2 with hdb hrec
          subst hdb
          subst hrec
          exact ⟨rfl, heq⟩
        next _ => exact absurd h (by simp)

theorem update_address_ok_rec {db : List Address} {address_id : Nat}
    {u : AddressUpdate} {a : Address} {db2 : List Address} {rec : Address}
    (hfind : db.find? (fun x => x.id = address_id) = some a)
    (h : update_address db address_id u = .ok (db2, rec)) :
    rec = apply_update a u := by
  obtain ⟨hdb2, hfind2⟩ := update_address_ok_shape h
  subst hdb2
  rw [List.find?_map] at hfind2
  have hpf :
      ((fun x : Address => decide (x.id = address_id)) ∘
        (fun x : Address => if x.id = address_id then apply_update x u else x)) =
      fun x : Address => decide (x.id = address_id) := by
    funext x
    by_cases hx : x.id = address_id
    · simp [Function.comp, hx, apply_update_id]
    · simp [Function.comp, hx]
  rw [hpf, hfind] at hfind2
  have ha : a.id = address_id := by simpa using List.find?_some hfind
  simp only [Option.map_some'] at hfind2
  injection hfind2 with hrec
  rw [← hrec, if_pos ha]

theorem update_address_frame_mem {db : List Address} {address_id : Nat}
    {u : AddressUpdate} {db2 : List Address} {rec : Address}
    (h : update_address db address_id u = .ok (db2, rec)) :
    ∀ b ∈ db, b.id ≠ address_id → b ∈ db2 := by
  obtain ⟨hdb2, -⟩ := update_address_ok_shape h
  subst hdb2
  intro b hb hbid
  have hfb :
      (fun x : Address => if x.id = address_id then apply_update x u else x) b = b := by
    simp [hbid]
  exact hfb ▸ List.mem_map_of_mem _ hb

theorem upd_str_ne_empty (old : String) (v : Option String) (h : old ≠ "") :
    (match v with
      | some s => if s = "" then old else s
      | none => old) ≠ "" := by
  rcases v with _ | s
  · exact h
  · dsimp only
    split_ifs with hs
    · exact h
    · exact hs

theorem upd_rat_ne_zero (old : Rat) (v : Option Rat) (h : old ≠ 0) :
    (match v with
      | some x => if x = 0 then old else x
      | none => old) ≠ 0 := by
  rcases v with _ | x
  · exact h
  · dsimp only
    split_ifs with hx
    · exact h
    · exact hx

theorem id_le_foldr_max {b : Address} :
    ∀ {db : List Address}, b ∈ db → b.id ≤ db.foldr (fun a m => max a.id m) 0 := by
  intro db
  induction db with
  | nil => intro hb; cases hb
  | cons c cs ih =>
    intro hb
    rcases List.mem_cons.mp hb with hb | hb
    · subst hb; exact le_max_left _ _
    · exact le_trans (ih hb) (le_max_right _ _)

theorem id_lt_next_id {db : List Address} {b : Address} (hb : b ∈ db) :
    b.id < next_id db :=
  Nat.lt_succ_of_le (id_le_foldr_max hb)

theorem ratAbs_nonneg (x : Rat) : 0 ≤ ratAbs x := by
  unfold ratAbs
  split_ifs with h
  · linarith
  · exact le_of_not_lt h

theorem model_geo_distance_nonneg (p q : Rat × Rat) :
    0 ≤ model_geo_distance p q :=
  add_nonneg (ratAbs_nonneg _) (ratAbs_nonneg _)

/-! ## Claim theorems -/

/-- C1: refuted on the code (code bug). Pydantic validation of an
AddressUpdate body accepts an out-of-range latitude (the AddressUpdate class
re-declares latitude as a plain Optional float, dropping the range
validator), and update_address then commits it: updating stored address 1
with latitude 1000 succeeds and leaves a persisted record whose latitude is
outside [-90, 90], so an update operation can make a stored coordinate leave
its legal range. -/
theorem C1_update_coordinates_not_range_validated :
    addressUpdate_validate u1000 = Except.ok u1000 ∧
    update_address [addr0] 1 u1000 = Except.ok ([addr1000], addr1000) ∧
    addr1000.latitude = 1000 ∧ ¬(addr1000.latitude ≤ 90) := by
  decide

/-- C2: refuted on the code (code bug). The repository-level scan of
get_nearby_addresses implements the claimed inclusive filter, but the only
caller, the within-distance endpoint in main.py, invokes the module
attribute get_addresses_within, which is not among the functions defined by
address_utils; every request to the endpoint therefore raises
AttributeError (an HTTP 500), so FindWithinDistance as exposed does error on
valid numeric inputs. -/
theorem C2_within_distance_endpoint_calls_missing_function :
    within_distance_endpoint_callee ∉ address_utils_functions ∧
    "get_nearby_addresses" ∈ address_utils_functions := by
  decide

/-- C9: refuted on the code (code bug). The validation exception handler
passes the keyword argument errors to create_error_response, but
create_error_response accepts only message, status_code and data, so the
call raises TypeError instead of returning the envelope; moreover the
envelope create_error_response builds has no errors key at all, so the
structured per-field error list never reaches the caller. -/
theorem C9_validation_errors_kwarg_rejected :
    kwargs_bind create_error_response_params validation_handler_kwargs = false ∧
    "errors" ∈ validation_handler_kwargs ∧
    "errors" ∉ create_error_response_params ∧
    "errors" ∉ create_error_response_keys := by
  decide

/-- C10: for every nonnegative distance function (the spec's geodesic
distance is nonnegative), every store and every origin, get_nearby_addresses
with a negative distance threshold returns the empty list: no stored address
can have distance at most a negative number. -/
theorem C10_negative_distance_returns_empty
    (gd : Rat × Rat → Rat × Rat → Rat)
    (hgd : ∀ p q, 0 ≤ gd p q)
    (db : List Address) (d lat lon : Rat) (hd : d < 0) :
    get_nearby_addresses gd db d lat lon = [] := by
  unfold get_nearby_addresses
  rw [List.filter_eq_nil_iff]
  intro a ha
  simp only [decide_eq_true_eq]
  intro hle
  have hnn := hgd (lat, lon) (a.latitude, a.longitude)
  linarith

/-- C10 witness: with the concrete nonnegative distance model, a store
holding addr0 and distance -1, the scan returns the empty list. -/
theorem C10_negative_distance_returns_empty_witness :
    get_nearby_addresses model_geo_distance [addr0] (-1) 0 0 = [] :=
  C10_negative_distance_returns_empty model_geo_distance
    model_geo_distance_nonneg [addr0] (-1) 0 0 (by norm_num)

/-- C5: creation validation raises if and only if a coordinate is out of
range: validate_latitude accepts l exactly when -90 ≤ l ≤ 90 and errors
exactly when l < -90 or l > 90 (boundaries valid), analogously
validate_longitude for [-180, 180], and the AddressCreate validators accept
a payload exactly when both coordinates are in range. -/
theorem C5_create_validation_iff_in_range (l lon : Rat) (a : AddressCreate) :
    ((validate_latitude l = Except.ok l) ↔ (-90 ≤ l ∧ l ≤ 90)) ∧
    ((∃ e, validate_latitude l = Except.error e) ↔ (l < -90 ∨ 90 < l)) ∧
    ((validate_longitude lon = Except.ok lon) ↔ (-180 ≤ lon ∧ lon ≤ 180)) ∧
    ((∃ e, validate_longitude lon = Except.error e) ↔ (lon < -180 ∨ 180 < lon)) ∧
    ((addressCreate_validate a = Except.ok a) ↔
      (-90 ≤ a.latitude ∧ a.latitude ≤ 90 ∧
       -180 ≤ a.longitude ∧ a.longitude ≤ 180)) := by
  refine ⟨?_, ?_, ?_, ?_, ?_⟩
  · unfold validate_latitude
    split_ifs with h
    · constructor
      · intro hc; exact absurd hc (by simp)
      · rintro ⟨h1, h2⟩; rcases h with h | h <;> linarith
    · push_neg at h
      constructor
      · intro _; exact ⟨h.1, h.2⟩
      · intro _; rfl
  · unfold validate_latitude
    split_ifs with h
    · constructor
      · intro _; exact h
      · intro _; exact ⟨_, rfl⟩
    · constructor
      · rintro ⟨e, he⟩; exact absurd he (by simp)
      · intro hc; exact absurd hc h
  · unfold validate_longitude
    split_ifs with h
    · constructor
      · intro hc; exact absurd hc (by simp)
      · rintro ⟨h1, h2⟩; rcases h with h | h <;> linarith
    · push_neg at h
      constructor
      · intro _; exact ⟨h.1, h.2⟩
      · intro _; rfl
  · unfold validate_longitude
    split_ifs with h
    · constructor
      · intro _; exact h
      · intro _; exact ⟨_, rfl⟩
    · constructor
      · rintro ⟨e, he⟩; exact absurd he (by simp)
      · intro hc; exact absurd hc h
  · unfold addressCreate_validate validate_latitude validate_longitude
    split_ifs with h1 h2
    · constructor
      · intro hc; exact absurd hc (by simp)
      · rintro ⟨ha1, ha2, ha3, ha4⟩; rcases h1 with h | h <;> linarith
    · constructor
      · intro hc; exact absurd hc (by simp)
      · rintro ⟨ha1, ha2, ha3, ha4⟩; rcases h2 with h | h <;> linarith
    · push_neg at h1 h2
      constructor
      · intro _; exact ⟨h1.1, h1.2, h2.1, h2.2⟩
      · intro _; rfl

/-- C5 witness: the boundary latitude 90 and longitude 180 pass validation,
and a payload at the corner (-90, 180) passes creation validation. -/
theorem C5_create_validation_iff_in_range_witness :
    validate_latitude 90 = Except.ok 90 ∧
    validate_longitude 180 = Except.ok 180 ∧
    addressCreate_validate { a0 with latitude := -90, longitude := 180 } =
      Except.ok { a0 with latitude := -90, longitude := 180 } :=
  ⟨(C5_create_validation_iff_in_range 90 180 { a0 with latitude := -90, longitude := 180 }).1.mpr
      (by norm_num),
   (C5_create_validation_iff_in_range 90 180 { a0 with latitude := -90, longitude := 180 }).2.2.1.mpr
      (by norm_num),
   (C5_create_validation_iff_in_range 90 180 { a0 with latitude := -90, longitude := 180 }).2.2.2.2.mpr
      (by constructor <;> [norm_num; constructor <;> [norm_num; constructor <;> norm_num]])⟩

/-- C3 counterexample: Update with the empty payload on an existing id is
not a successful no-op: the empty fields_to_update dict makes the store
layer reject the UPDATE statement, surfacing as HTTP 500, instead of
returning the unchanged record. -/
theorem C3_empty_update_errors_counterexample :
    update_address [addr0] 1 emptyUpd =
      Except.error ⟨500, "An unexpected error occurred while updating the address."⟩ ∧
    update_address [addr0] 1 emptyUpd ≠ Except.ok ([addr0], addr0) := by
  decide

/-- C3 as amended: a successful update applies only the truthy fields
present in the payload — every field absent from the payload is byte-identical
in the returned record to its stored value, and every other stored row is
preserved — while a payload with no truthy field (in particular the empty
payload) makes update_address fail with HTTP 500 rather than succeed as a
no-op. -/
theorem C3_update_partial_frame (db : List Address) (address_id : Nat)
    (u : AddressUpdate) :
    (has_truthy u = false →
      update_address db address_id u =
        Except.error ⟨500, "An unexpected error occurred while updating the address."⟩) ∧
    (∀ a db2 rec,
      db.find? (fun x => x.id = address_id) = some a →
      update_address db address_id u = Except.ok (db2, rec) →
      ((u.name = none → rec.name = a.name) ∧
       (u.street = none → rec.street = a.street) ∧
       (u.city = none → rec.city = a.city) ∧
       (u.state = none → rec.state = a.state) ∧
       (u.country = none → rec.country = a.country) ∧
       (u.latitude = none → rec.latitude = a.latitude) ∧
       (u.longitude = none → rec.longitude = a.longitude)) ∧
      ∀ b ∈ db, b.id ≠ address_id → b ∈ db2) := by
  constructor
  · intro h
    unfold update_address
    rw [if_pos h]
  · intro a db2 rec hfind hupd
    have hrec := update_address_ok_rec hfind hupd
    subst hrec
    refine ⟨⟨?_, ?_, ?_, ?_, ?_, ?_, ?_⟩, update_address_frame_mem hupd⟩
    all_goals intro hn
    all_goals simp [apply_update, hn]

/-- C3 witness: the empty payload is all-falsy, and updating addr0 with it
fails with HTTP 500. -/
theorem C3_update_partial_frame_witness :
    has_truthy emptyUpd = false ∧
    update_address [addr0] 1 emptyUpd =
      Except.error ⟨500, "An unexpected error occurred while updating the address."⟩ :=
  ⟨by decide, (C3_update_partial_frame [addr0] 1 emptyUpd).1 (by decide)⟩

/-- C4: a field explicitly set to the empty string or to zero in the update
payload is treated as do-not-update — the returned record keeps the stored
value of that field — and no successful update can clear a field: a stored
field that was nonempty (nonzero) stays nonempty (nonzero). -/
theorem C4_falsy_update_fields_ignored (db : List Address) (address_id : Nat)
    (u : AddressUpdate) (a : Address) (db2 : List Address) (rec : Address)
    (hfind : db.find? (fun x => x.id = address_id) = some a)
    (hupd : update_address db address_id u = Except.ok (db2, rec)) :
    ((u.name = some "" → rec.name = a.name) ∧
     (u.street = some "" → rec.street = a.street) ∧
     (u.city = some "" → rec.city = a.city) ∧
     (u.state = some "" → rec.state = a.state) ∧
     (u.country = some "" → rec.country = a.country) ∧
     (u.latitude = some 0 → rec.latitude = a.latitude) ∧
     (u.longitude = some 0 → rec.longitude = a.longitude)) ∧
    ((a.name ≠ "" → rec.name ≠ "") ∧
     (a.street ≠ "" → rec.street ≠ "") ∧
     (a.city ≠ "" → rec.city ≠ "") ∧
     (a.state ≠ "" → rec.state ≠ "") ∧
     (a.country ≠ "" → rec.country ≠ "") ∧
     (a.latitude ≠ 0 → rec.latitude ≠ 0) ∧
     (a.longitude ≠ 0 → rec.longitude ≠ 0)) := by
  have hrec := update_address_ok_rec hfind hupd
  subst hrec
  constructor
  · refine ⟨?_, ?_, ?_, ?_, ?_, ?_, ?_⟩
    all_goals intro hn
    all_goals simp [apply_update, hn]
  · refine ⟨?_, ?_, ?_, ?_, ?_, ?_, ?_⟩
    · intro h
      rcases hn : u.name with _ | s
      · simpa [apply_update, hn] using h
      · simp only [apply_update, hn]
        split_ifs with hs
        exacts [h, hs]
    · intro h
      rcases hn : u.street with _ | s
      · simpa [apply_update, hn] using h
      · simp only [apply_update, hn]
        split_ifs with hs
        exacts [h, hs]
    · intro h
      rcases hn : u.city with _ | s
      · simpa [apply_update, hn] using h
      · simp only [apply_update, hn]
        split_ifs with hs
        exacts [h, hs]
    · intro h
      rcases hn : u.state with _ | s
      · simpa [apply_update, hn] using h
      · simp only [apply_update, hn]
        split_ifs with hs
        exacts [h, hs]
    · intro h
      rcases hn : u.country with _ | s
      · simpa [apply_update, hn] using h
      · simp only [apply_update, hn]
        split_ifs with hs
        exacts [h, hs]
    · intro h
      rcases hn : u.latitude with _ | x
      · simpa [apply_update, hn] using h
      · simp only [apply_update, hn]
        split_ifs with hx
        exacts [h, hx]
    · intro h
      rcases hn : u.longitude with _ | x
      · simpa [apply_update, hn] using h
      · simp only [apply_update, hn]
        split_ifs with hx
        exacts [h, hx]

/-- C4 witness: the payload with street set to the empty string, latitude
set to zero and longitude set to 7 updates only the longitude of addr0. -/
theorem C4_falsy_update_fields_ignored_witness :
    update_address [addr0] 1 u04 = Except.ok ([addr0_lon7], addr0_lon7) ∧
    addr0_lon7.street = addr0.street ∧
    addr0_lon7.latitude = addr0.latitude :=
  ⟨by decide,
   (C4_falsy_update_fields_ignored [addr0] 1 u04 addr0 [addr0_lon7] addr0_lon7
      (by decide) (by decide)).1.2.1 rfl,
   (C4_falsy_update_fields_ignored [addr0] 1 u04 addr0 [addr0_lon7] addr0_lon7
      (by decide) (by decide)).1.2.2.2.2.2.1 rfl⟩

/-- C6 counterexample: with an id absent from the store, Get fails with 404
as claimed, but Update with the empty payload fails with HTTP 500 (the store
layer rejects the empty UPDATE before the rowcount check can raise 404), so
Update on a nonexistent id does not always fail with NotFoundError. -/
theorem C6_empty_update_on_missing_id_counterexample :
    get_address ([] : List Address) 1 = Except.error ⟨404, "Address not found"⟩ ∧
    update_address ([] : List Address) 1 emptyUpd =
      Except.error ⟨500, "An unexpected error occurred while updating the address."⟩ ∧
    (HTTPError.mk 500 "An unexpected error occurred while updating the address.").statusCode
      ≠ 404 := by
  decide

/-- C6 as amended: for an id with no stored record, Get fails with 404,
Delete fails with 404 (through its existence read, never silently
succeeding), and Update fails with the 404 NotFound error for every payload
with at least one truthy field — but with an all-falsy payload Update fails
with HTTP 500 from the rejected empty UPDATE instead of 404. Errors return
no store, so the store is unchanged in every case. -/
theorem C6_missing_id_fails_not_found (db : List Address) (address_id : Nat)
    (u : AddressUpdate)
    (habs : db.find? (fun x => x.id = address_id) = none) :
    get_address db address_id = Except.error ⟨404, "Address not found"⟩ ∧
    delete_address db address_id = Except.error ⟨404, "Address not found"⟩ ∧
    (has_truthy u = true →
      update_address db address_id u =
        Except.error ⟨404, "No address found with ID: " ++ toString address_id⟩) ∧
    (has_truthy u = false →
      update_address db address_id u =
        Except.error ⟨500, "An unexpected error occurred while updating the address."⟩) := by
  have hget : get_address db address_id = Except.error ⟨404, "Address not found"⟩ := by
    unfold get_address
    rw [habs]
  refine ⟨hget, ?_, ?_, ?_⟩
  · unfold delete_address
    rw [hget]
  · intro ht
    have hfil : db.filter (fun a => a.id = address_id) = [] := by
      rw [List.filter_eq_nil_iff]
      intro b hb
      simpa using List.find?_eq_none.mp habs b hb
    simp [update_address, ht, hfil]
  · intro hf
    simp [update_address, hf]

/-- C6 witness: on the empty store, Get on id 1 is 404, and Update with the
truthy payload u1000 is the 404 NotFound error. -/
theorem C6_missing_id_fails_not_found_witness :
    get_address ([] : List Address) 1 = Except.error ⟨404, "Address not found"⟩ ∧
    update_address ([] : List Address) 1 u1000 =
      Except.error ⟨404, "No address found with ID: 1"⟩ :=
  ⟨(C6_missing_id_fails_not_found [] 1 u1000 (by decide)).1,
   (C6_missing_id_fails_not_found [] 1 u1000 (by decide)).2.2.1 (by decide)⟩

/-- C7: create fails with the 409 conflict error exactly when the payload's
name collides with a stored record (and then stores nothing, returning no
success value), fails with the 500 store error on any other persistence
failure, and the two errors are distinguishable. -/
theorem C7_create_conflict_vs_store_error (db : List Address) (fault : Bool)
    (a : AddressCreate) :
    (fault = true →
      create_address db fault a =
        Except.error ⟨500, "An error occurred while storing the address."⟩) ∧
    (fault = false →
      ((db.any (fun b => b.name = a.name) = true) ↔
        create_address db fault a =
          Except.error ⟨409, "Address with the same name already exists."⟩)) ∧
    (fault = false → db.any (fun b => b.name = a.name) = true →
      ∀ r, create_address db fault a ≠ Except.ok r) ∧
    ((HTTPError.mk 409 "Address with the same name already exists.") ≠
      HTTPError.mk 500 "An error occurred while storing the address.") := by
  refine ⟨?_, ?_, ?_, by decide⟩
  · intro hf
    subst hf
    simp [create_address, db_insert]
  · intro hf
    subst hf
    by_cases hd : db.any (fun b => b.name = a.name) = true
    · simp [create_address, db_insert, hd]
    · simp [create_address, db_insert, hd]
  · intro hf hd r
    subst hf
    simp [create_address, db_insert, hd]

/-- C7 witness: creating a second address named HQ against a store already
holding addr0 (named HQ) fails with the 409 conflict error. -/
theorem C7_create_conflict_vs_store_error_witness :
    create_address [addr0] false a0 =
      Except.error ⟨409, "Address with the same name already exists."⟩ :=
  ((C7_create_conflict_vs_store_error [addr0] false a0).2.1 rfl).mp (by decide)

theorem get_address_append_fresh (db : List Address) (rec : Address)
    (hfresh : ∀ b ∈ db, b.id ≠ rec.id) :
    get_address (db ++ [rec]) rec.id = Except.ok rec := by
  unfold get_address
  rw [List.find?_append]
  have h1 : db.find? (fun x => x.id = rec.id) = none := by
    rw [List.find?_eq_none]
    intro b hb
    simpa using hfresh b hb
  rw [h1]
  simp [List.find?]

/-- C8: Create→Get round-trip: whenever create succeeds, Get on the assigned
id against the post-create store returns a record equal to the payload in
all seven fields, carrying the freshly assigned id. -/
theorem C8_create_get_roundtrip (db : List Address) (a : AddressCreate)
    (db2 : List Address) (rec : Address)
    (h : create_address db false a = Except.ok (db2, rec)) :
    get_address db2 rec.id = Except.ok rec ∧
    rec.name = a.name ∧ rec.street = a.street ∧ rec.city = a.city ∧
    rec.state = a.state ∧ rec.country = a.country ∧
    rec.latitude = a.latitude ∧ rec.longitude = a.longitude ∧
    rec.id = next_id db := by
  by_cases hany : db.any (fun b => b.name = a.name) = true
  · simp [create_address, db_insert, hany] at h
  · have hb : db.any (fun b => b.name = a.name) = false := by
      simpa using hany
    simp [create_address, db_insert, hb] at h
    obtain ⟨hdb2, hrec⟩ := h
    subst hdb2
    subst hrec
    refine ⟨?_, rfl, rfl, rfl, rfl, rfl, rfl, rfl, rfl⟩
    exact get_address_append_fresh db _
      (fun b hb' => Nat.ne_of_lt (id_lt_next_id hb'))

/-- C8 witness: creating a0 on the empty store yields addr0 with id 1, and
Get on id 1 returns it. -/
theorem C8_create_get_roundtrip_witness :
    create_address ([] : List Address) false a0 = Except.ok ([addr0], addr0) ∧
    get_address [addr0] addr0.id = Except.ok addr0 :=
  ⟨by decide, (C8_create_get_roundtrip [] a0 [addr0] addr0 (by decide)).1⟩
